import Mathlib

/-!
# vnote: `TreeWidgetItem` and `NotebookExplorer`

A shallow embedding of `src/widgets/treewidgetitem.cpp` and of the session and
forwarding logic of `src/widgets/notebookexplorer.cpp`, followed by the
properties proved about them.

Conventions of the embedding:

* a `QString` is the list of its UTF-16 code units; `operator<` on `QString`
  is the lexicographic order on code units;
* toolkit functions that the code only calls (`QString::toLower`,
  `QTreeWidgetItem::operator<`) and the answers of collaborators (dialogs, the
  notebook, the node explorer) are parameters;
* every call the panel makes on a collaborator is appended to a log kept in
  the state, so that "is invoked", "is shown" and "is not touched" are
  statements about that log.
-/

namespace vnotex

/-! ## Strings -/

/-- A `QString`, as the sequence of its UTF-16 code units. -/
abbrev QString := List Nat

/-- The `QString` of a source literal (one code unit per character). -/
def qstr (s : String) : QString := s.toList.map Char.toNat

/-- The `operator<` of `QString`: lexicographic comparison of code units. -/
def qstringLess : QString → QString → Bool
  | [], [] => false
  | [], _ :: _ => true
  | _ :: _, [] => false
  | a :: as, b :: bs =>
    if a < b then true else if b < a then false else qstringLess as bs

/-! ## `treewidgetitem.cpp` -/

/-- A `QVariant`, observed through `canConvert<QString>()` and `toString()`. -/
structure QVariant where
  canConvertQString : Bool
  toString : QString

/-- A `QTreeWidget`, observed through `sortColumn()`. -/
structure QTreeWidget where
  sortColumn : Int

/-- A `QTreeWidgetItem`: the tree it belongs to (`treeWidget()`, possibly null)
and its display-role data per column (`data(column, Qt::DisplayRole)`). -/
structure QTreeWidgetItem where
  treeWidget : Option QTreeWidget
  data : Int → QVariant

/-- The toolkit functions `TreeWidgetItem::operator<` calls:
`QString::toLower` and the base class comparison `QTreeWidgetItem::operator<`. -/
structure Toolkit where
  toLower : QString → QString
  baseLess : QTreeWidgetItem → QTreeWidgetItem → Bool

/-- The column `TreeWidgetItem::operator<` compares (line 15):
`treeWidget() ? treeWidget()->sortColumn() : 0`. -/
def TreeWidgetItem.column (self : QTreeWidgetItem) : Int :=
  match self.treeWidget with
  | some w => w.sortColumn
  | none => 0

/-- The comparator `TreeWidgetItem::operator<` (lines 13-25). -/
def TreeWidgetItem.operatorLess (tk : Toolkit) (self p_other : QTreeWidgetItem) : Bool :=
  let column := TreeWidgetItem.column self
  let v1 := self.data column
  let v2 := p_other.data column
  if v1.canConvertQString && v2.canConvertQString then
    let s1 := tk.toLower v1.toString
    let s2 := tk.toLower v2.toString
    qstringLess s1 s2
  else
    tk.baseLess self p_other

/-- An instance of the toolkit for evaluation: lowercase maps the code units of
`A`..`Z` to those of `a`..`z`; the base comparison compares the raw texts of
column 0. -/
def asciiToolkit : Toolkit where
  toLower := fun s => s.map (fun c => if 65 ≤ c ∧ c ≤ 90 then c + 32 else c)
  baseLess := fun a b => qstringLess (a.data 0).toString (b.data 0).toString

/-- An item of a tree sorted on `col` whose columns show `texts`; a column past
the end holds an invalid variant. -/
def rowItem (col : Int) (texts : List (Option String)) : QTreeWidgetItem where
  treeWidget := some { sortColumn := col }
  data := fun c =>
    match (if 0 ≤ c then texts.get? c.toNat else none) with
    | some (some s) => { canConvertQString := true, toString := qstr s }
    | _ => { canConvertQString := false, toString := [] }

/-! ## `notebookexplorer.cpp`: data -/

/-- The notebook identifier type `ID`. -/
abbrev ID := Nat

/-- A `QByteArray`, as its bytes. -/
abbrev QByteArray := List Nat

/-- A `Notebook`, observed through the getters the panel calls. -/
structure Notebook where
  getId : ID
  getName : QString
  getRootFolderPath : QString
  getRecycleBinFolderAbsolutePath : QString
deriving DecidableEq

/-- A `Node`, observed through `getNotebook()` and `fetchPath()`. -/
structure Node where
  getNotebook : ID
  fetchPath : QString
deriving DecidableEq

/-- Modelled from the spec: the per-notebook session record, declared outside
the reviewed files: {last-open node path, recovered flag}. -/
structure NotebookSession where
  m_recovered : Bool
  m_currentNodePath : QString
deriving DecidableEq

/-- Modelled from the spec: the session, declared outside the reviewed files:
a mapping from notebook root path to its record (`m_notebooks`, a `QHash`). -/
structure NotebookExplorerSession where
  m_notebooks : QString → Option NotebookSession

/-- The default-constructed record. -/
def NotebookSession.default : NotebookSession :=
  { m_recovered := false, m_currentNodePath := [] }

/-- The value `m_notebooks[key]` refers to: the record at `key`, or a
default-constructed one that `QHash::operator[]` inserts when there is none. -/
def NotebookExplorerSession.index (s : NotebookExplorerSession) (key : QString) :
    NotebookSession :=
  (s.m_notebooks key).getD NotebookSession.default

/-- Writing `e` through a reference to the record at `key`. -/
def NotebookExplorerSession.put (s : NotebookExplorerSession) (key : QString)
    (e : NotebookSession) : NotebookExplorerSession :=
  { m_notebooks := fun k => if k = key then some e else s.m_notebooks k }

/-- The icon of a message box (`MessageBoxHelper::Type`). -/
inductive MessageType
  | Question | Information | Warning | Critical
deriving DecidableEq

/-- The dialogs of the panel that work on a folder node. -/
inductive DialogKind
  | NewFolderDialog | NewNoteDialog | ImportFolderDialog
deriving DecidableEq

/-- The button code `QMessageBox::Ok`. -/
def QMessageBox.Ok : Int := 0x400

/-- The dialog code `QDialog::Accepted`. -/
def QDialog.Accepted : Int := 1

/-- A call of the panel on a collaborator, with what the collaborator
answered. Message boxes are recorded with their icon and main text; pure
getters are not recorded. -/
inductive Call
  /-- The call `MessageBoxHelper::notify`. -/
  | notify (type : MessageType) (text : QString)
  /-- The call `MessageBoxHelper::questionOkCancel`, and the button it returned. -/
  | questionOkCancel (type : MessageType) (text : QString) (ret : Int)
  /-- The call `QFileDialog::getOpenFileNames`, and the files it returned. -/
  | getOpenFileNames (files : List QString)
  /-- Constructing a dialog on `node` and `exec()`, and the code it returned. -/
  | dialogExec (kind : DialogKind) (node : Node) (ret : Int)
  /-- The call `m_selector->setCurrentNotebook(id)`. -/
  | selectorSetCurrentNotebook (id : ID)
  /-- The call `m_nodeExplorer->setNotebook(p_notebook)`. -/
  | explorerSetNotebook (nb : Option Notebook)
  /-- The call `m_nodeExplorer->setCurrentNode(node)`. -/
  | explorerSetCurrentNode (node : Option Node)
  /-- The call `m_nodeExplorer->reload()`. -/
  | explorerReload
  /-- The call `notebook->scanAndImportExternalFiles()`, and the list it returned. -/
  | scanAndImportExternalFiles (nb : Notebook) (imported : List QString)
  /-- The call `notebook->emptyRecycleBin()`. -/
  | emptyRecycleBin (nb : Notebook)
  /-- The call `notebook->rebuildDatabase()`, and what it returned. -/
  | rebuildDatabase (nb : Notebook) (ret : Bool)
  /-- The call `notebook->copyAsNode(node, Node::Flag::Content, file)`, and the text of
  the `Exception` it threw, if it threw. -/
  | copyAsNode (nb : Notebook) (node : Node) (file : QString) (thrown : Option QString)
  /-- The signal `notebook->nodeUpdated(node)`. -/
  | nodeUpdated (nb : Notebook) (node : Node)
  /-- The signal `VNoteX::openNodeRequested(node, paras)`. -/
  | openNodeRequested (node : Option Node)
deriving DecidableEq

/-- What the collaborators answer. Each answer may depend on the calls made so
far. `copyAsNode` answers `none` when it returns and `some what` when it throws
an `Exception` whose text is `what`. -/
structure Env where
  InvalidId : ID
  serialize : NotebookExplorerSession → QByteArray
  deserialize : QByteArray → NotebookExplorerSession
  currentExploredNode : List Call → Option Node
  currentExploredFolderNode : List Call → Option Node
  loadNodeByPath : List Call → Notebook → QString → Option Node
  questionOkCancel : List Call → Int
  getOpenFileNames : List Call → List QString
  dialogExec : List Call → DialogKind → Node → Int
  getNewNode : List Call → DialogKind → Option Node
  scanAndImportExternalFiles : List Call → Notebook → List QString
  rebuildDatabase : List Call → Notebook → Bool
  copyAsNode : List Call → Notebook → Node → QString → Option QString

/-- The state of the panel: its members `m_currentNotebook`, `m_session` and
`m_sessionLoaded`, the explorer session held by the session config of
`ConfigMgr`, and the log of the calls made on collaborators. -/
structure NotebookExplorer where
  m_currentNotebook : Option Notebook
  m_session : NotebookExplorerSession
  m_sessionLoaded : Bool
  sessionConfig : QByteArray
  calls : List Call

/-- The close event, observed through `m_handled`. -/
structure Event where
  m_handled : Bool

namespace NotebookExplorer

/-- Appending one call to the log. -/
def call (st : NotebookExplorer) (c : Call) : NotebookExplorer :=
  { st with calls := st.calls ++ [c] }

/-- The getter `currentNotebook` (lines 379-382). -/
def currentNotebook (st : NotebookExplorer) : Option Notebook :=
  st.m_currentNotebook

/-- The getter `currentExploredNode` (lines 286-289). -/
def currentExploredNode (env : Env) (st : NotebookExplorer) : Option Node :=
  env.currentExploredNode st.calls

/-- The getter `currentExploredFolderNode` (lines 281-284). -/
def currentExploredFolderNode (env : Env) (st : NotebookExplorer) : Option Node :=
  env.currentExploredFolderNode st.calls

/-- The function `updateSession` (lines 488-503). -/
def updateSession (env : Env) (st : NotebookExplorer) : NotebookExplorer :=
  if !st.m_sessionLoaded then st
  else
    match st.m_currentNotebook with
    | none => st
    | some nb =>
      let key := nb.getRootFolderPath
      let nbSession := st.m_session.index key
      let nbSession := { nbSession with m_recovered := true }
      let nbSession :=
        match currentExploredNode env st with
        | some node => { nbSession with m_currentNodePath := node.fetchPath }
        | none => { nbSession with m_currentNodePath := [] }
      { st with m_session := st.m_session.put key nbSession }

/-- The function `recoverSession` (lines 505-524). -/
def recoverSession (env : Env) (st : NotebookExplorer) : NotebookExplorer :=
  if !st.m_sessionLoaded then st
  else
    match st.m_currentNotebook with
    | none => st
    | some nb =>
      let key := nb.getRootFolderPath
      match st.m_session.m_notebooks key with
      | none => st
      | some it =>
        if it.m_recovered || it.m_currentNodePath.isEmpty then st
        else
          let st := { st with m_session := st.m_session.put key { it with m_recovered := true } }
          match env.loadNodeByPath st.calls nb it.m_currentNodePath with
          | some node => st.call (Call.explorerSetCurrentNode (some node))
          | none => st

/-- The function `setCurrentNotebook` (lines 223-235). -/
def setCurrentNotebook (env : Env) (p_notebook : Option Notebook)
    (st : NotebookExplorer) : NotebookExplorer :=
  let st := updateSession env st
  let st := { st with m_currentNotebook := p_notebook }
  let id :=
    match p_notebook with
    | some nb => nb.getId
    | none => env.InvalidId
  let st := st.call (Call.selectorSetCurrentNotebook id)
  let st := st.call (Call.explorerSetNotebook p_notebook)
  recoverSession env st

/-- The function `saveSession` (lines 470-476); `setNotebookExplorerSession`
stores its argument in the session config. -/
def saveSession (env : Env) (st : NotebookExplorer) : NotebookExplorer :=
  let st := updateSession env st
  { st with sessionConfig := env.serialize st.m_session }

/-- The function `loadSession` (lines 478-486);
`getNotebookExplorerSessionAndClear` returns the stored bytes and leaves the
stored value empty. -/
def loadSession (env : Env) (st : NotebookExplorer) : NotebookExplorer :=
  let data := st.sessionConfig
  let st := { st with sessionConfig := [] }
  let st := { st with m_session := env.deserialize data }
  let st := { st with m_sessionLoaded := true }
  recoverSession env st

/-- The handler connected to `MainWindow::mainWindowClosed` (lines 46-53). -/
def onMainWindowClosed (env : Env) (p_event : Event) (st : NotebookExplorer) :
    NotebookExplorer :=
  if p_event.m_handled then st
  else saveSession env st

/-- The function `checkNotebookAndGetCurrentExploredFolderNode`
(lines 291-303): the folder node, or null after a message box when there is no
current notebook. The `Q_ASSERT` of line 301 states that with a current
notebook the explored folder node exists and belongs to it; it is a check of
debug builds and has no effect here. -/
def checkNotebookAndGetCurrentExploredFolderNode (env : Env) (st : NotebookExplorer) :
    Option Node × NotebookExplorer :=
  match st.m_currentNotebook with
  | none =>
    (none, st.call (Call.notify MessageType.Information
      (qstr "Please first create a notebook to hold your data.")))
  | some _ => (currentExploredFolderNode env st, st)

/-- The function `newFolder` (lines 249-260). -/
def newFolder (env : Env) (st : NotebookExplorer) : NotebookExplorer :=
  match checkNotebookAndGetCurrentExploredFolderNode env st with
  | (none, st) => st
  | (some node, st) =>
    let ret := env.dialogExec st.calls DialogKind.NewFolderDialog node
    let st := st.call (Call.dialogExec DialogKind.NewFolderDialog node ret)
    if ret = QDialog.Accepted then
      st.call (Call.explorerSetCurrentNode (env.getNewNode st.calls DialogKind.NewFolderDialog))
    else st

/-- The function `newNote` (lines 262-279). -/
def newNote (env : Env) (st : NotebookExplorer) : NotebookExplorer :=
  match checkNotebookAndGetCurrentExploredFolderNode env st with
  | (none, st) => st
  | (some node, st) =>
    let ret := env.dialogExec st.calls DialogKind.NewNoteDialog node
    let st := st.call (Call.dialogExec DialogKind.NewNoteDialog node ret)
    if ret = QDialog.Accepted then
      let newNode := env.getNewNode st.calls DialogKind.NewNoteDialog
      let st := st.call (Call.explorerSetCurrentNode newNode)
      st.call (Call.openNodeRequested newNode)
    else st

/-- The text `tr("Failed to add file (%1) as node (%2).\n").arg(file, what)`. -/
def failedToAddFile (file what : QString) : QString :=
  qstr "Failed to add file (" ++ file ++ qstr ") as node (" ++ what ++ qstr ").\n"

/-- The loop of `importFile` (lines 326-333) over the files still to copy,
on the error message and the log so far. -/
def importFileLoop (env : Env) (nb : Notebook) (node : Node) :
    List QString → QString × List Call → QString × List Call
  | [], acc => acc
  | file :: rest, (errMsg, calls) =>
    match env.copyAsNode calls nb node file with
    | none =>
      importFileLoop env nb node rest
        (errMsg, calls ++ [Call.copyAsNode nb node file none])
    | some what =>
      importFileLoop env nb node rest
        (errMsg ++ failedToAddFile file what,
          calls ++ [Call.copyAsNode nb node file (some what)])

/-- The function `importFile` (lines 311-341). After the check has returned a
node a notebook is current, so the branch for a null `m_currentNotebook` below
is never taken. -/
def importFile (env : Env) (st : NotebookExplorer) : NotebookExplorer :=
  match checkNotebookAndGetCurrentExploredFolderNode env st with
  | (none, st) => st
  | (some node, st) =>
    let files := env.getOpenFileNames st.calls
    let st := st.call (Call.getOpenFileNames files)
    if files.isEmpty then st
    else
      match st.m_currentNotebook with
      | none => st
      | some nb =>
        let (errMsg, calls) := importFileLoop env nb node files ([], st.calls)
        let st := { st with calls := calls }
        let st :=
          if !errMsg.isEmpty then st.call (Call.notify MessageType.Critical errMsg)
          else st
        let st := st.call (Call.nodeUpdated nb node)
        st.call (Call.explorerSetCurrentNode (some node))

/-- The function `importFolder` (lines 343-354). -/
def importFolder (env : Env) (st : NotebookExplorer) : NotebookExplorer :=
  match checkNotebookAndGetCurrentExploredFolderNode env st with
  | (none, st) => st
  | (some node, st) =>
    let ret := env.dialogExec st.calls DialogKind.ImportFolderDialog node
    let st := st.call (Call.dialogExec DialogKind.ImportFolderDialog node ret)
    if ret = QDialog.Accepted then
      st.call (Call.explorerSetCurrentNode (env.getNewNode st.calls DialogKind.ImportFolderDialog))
    else st

/-- The handler of the "Scan and Import" button (lines 132-158). -/
def scanAndImport (env : Env) (st : NotebookExplorer) : NotebookExplorer :=
  match st.m_currentNotebook with
  | none =>
    st.call (Call.notify MessageType.Warning (qstr "Please select one notebook first."))
  | some nb =>
    let ret := env.questionOkCancel st.calls
    let st := st.call (Call.questionOkCancel MessageType.Warning
      (qstr "Scan the whole notebook (" ++ nb.getName
        ++ qstr ") and import external files automatically?") ret)
    if ret ≠ QMessageBox.Ok then st
    else
      let importedFiles := env.scanAndImportExternalFiles st.calls nb
      let st := st.call (Call.scanAndImportExternalFiles nb importedFiles)
      let st := st.call (Call.notify MessageType.Information
        (qstr "Imported " ++ qstr (toString importedFiles.length) ++ qstr " file(s)."))
      if !importedFiles.isEmpty then st.call Call.explorerReload
      else st

/-- The handler of the "Empty Recycle Bin" action (lines 455-467). -/
def emptyRecycleBin (env : Env) (st : NotebookExplorer) : NotebookExplorer :=
  match st.m_currentNotebook with
  | none => st
  | some nb =>
    let okRet := env.questionOkCancel st.calls
    let st := st.call (Call.questionOkCancel MessageType.Warning
      (qstr "Empty the recycle bin of notebook (" ++ nb.getName ++ qstr ")?") okRet)
    if okRet = QMessageBox.Ok then st.call (Call.emptyRecycleBin nb)
    else st

/-- The function `rebuildDatabase` (lines 526-562). The progress dialog, which
asks nothing of the user, is not recorded. -/
def rebuildDatabase (env : Env) (st : NotebookExplorer) : NotebookExplorer :=
  match st.m_currentNotebook with
  | none => st
  | some nb =>
    let okRet := env.questionOkCancel st.calls
    let st := st.call (Call.questionOkCancel MessageType.Warning
      (qstr "Rebuild the database of notebook (" ++ nb.getName ++ qstr ")?") okRet)
    if okRet ≠ QMessageBox.Ok then st
    else
      let ret := env.rebuildDatabase st.calls nb
      let st := st.call (Call.rebuildDatabase nb ret)
      if ret then
        st.call (Call.notify MessageType.Information
          (qstr "Notebook database has been rebuilt."))
      else
        st.call (Call.notify MessageType.Warning
          (qstr "Failed to rebuild notebook database."))

end NotebookExplorer

/-- The path `updateSession` records: the fetched path of the explored node,
empty when there is none. -/
def exploredPath (env : Env) (st : NotebookExplorer) : QString :=
  match env.currentExploredNode st.calls with
  | some node => node.fetchPath
  | none => []

/-- The copy attempts of `importFile` on `files` from the log `calls` on: each
file with what `copyAsNode` answered for it (`none`: it returned; `some what`:
it threw), in the order of the attempts. -/
def copyOutcomes (env : Env) (nb : Notebook) (node : Node) :
    List QString → List Call → List (QString × Option QString)
  | [], _ => []
  | file :: rest, calls =>
    (file, env.copyAsNode calls nb node file) ::
      copyOutcomes env nb node rest
        (calls ++ [Call.copyAsNode nb node file (env.copyAsNode calls nb node file)])

/-- The line of the error message owed to one attempt: none when the copy
returned, the "Failed to add file" line when it threw. -/
def failureLine (o : QString × Option QString) : Option QString :=
  o.2.map (NotebookExplorer.failedToAddFile o.1)

/-- The calls made from state `st` to state `st2`, whose log extends that of
`st`. -/
def newCalls (st st2 : NotebookExplorer) : List Call :=
  st2.calls.drop st.calls.length

/-- The calls that open a modal dialog: the message boxes of
`MessageBoxHelper` (a `QMessageBox` run with `exec()`), the file dialog and the
dialogs of the panel. -/
def Call.opensDialog : Call → Bool
  | Call.notify _ _ => true
  | Call.questionOkCancel _ _ _ => true
  | Call.getOpenFileNames _ => true
  | Call.dialogExec _ _ _ => true
  | _ => false

/-- The calls on the node explorer. -/
def Call.onExplorer : Call → Bool
  | Call.explorerSetNotebook _ => true
  | Call.explorerSetCurrentNode _ => true
  | Call.explorerReload => true
  | _ => false

/-- The notebook with id `id` rooted at `root`. -/
def demoNotebook (id : ID) (root : String) : Notebook :=
  { getId := id, getName := qstr root, getRootFolderPath := qstr root,
    getRecycleBinFolderAbsolutePath := qstr root ++ qstr "/vx_recycle_bin" }

/-- The node of notebook `id` at `path`. -/
def demoNode (id : ID) (path : String) : Node :=
  { getNotebook := id, fetchPath := qstr path }

/-- The session with no entry. -/
def emptySession : NotebookExplorerSession :=
  { m_notebooks := fun _ => none }

/-- The session with the entries of `l`, the first one for a key winning. -/
def sessionOf (l : List (String × Bool × String)) : NotebookExplorerSession :=
  { m_notebooks := fun k =>
      (l.find? (fun e => qstr e.1 = k)).map
        (fun e => { m_recovered := e.2.1, m_currentNodePath := qstr e.2.2 }) }

/-- Collaborators for evaluation: the explorer shows the node it was last told
to show (none after `setNotebook`), every notebook loads every path except
`"gone"`, the user answers `answer` to every question and accepts dialogs,
the file dialog returns `files`, and copying a file throws "exists" exactly
when its name starts with the code unit of `x`. -/
def demoEnv (answer : Int) (files : List String) : Env where
  InvalidId := 0
  serialize := fun s =>
    match s.m_notebooks (qstr "nb1") with
    | some e => e.m_currentNodePath
    | none => []
  deserialize := fun d =>
    { m_notebooks := fun k =>
        if k = qstr "nb1" ∧ d ≠ [] then
          some { m_recovered := false, m_currentNodePath := d }
        else none }
  currentExploredNode := fun calls =>
    calls.foldl (fun cur c =>
      match c with
      | Call.explorerSetCurrentNode n => n
      | Call.explorerSetNotebook _ => none
      | _ => cur) none
  currentExploredFolderNode := fun _ => some (demoNode 1 "folder")
  loadNodeByPath := fun _ nb path =>
    if path = qstr "gone" then none
    else some { getNotebook := nb.getId, fetchPath := path }
  questionOkCancel := fun _ => answer
  getOpenFileNames := fun _ => files.map qstr
  dialogExec := fun _ _ _ => QDialog.Accepted
  getNewNode := fun _ _ => some (demoNode 1 "folder/new")
  scanAndImportExternalFiles := fun _ _ => files.map qstr
  rebuildDatabase := fun _ _ => true
  copyAsNode := fun _ _ _ file =>
    if file.head? = some 120 then some (qstr "exists") else none

/-- A state with the given current notebook, session, loaded flag and log,
and nothing stored in the session config. -/
def demoState (nb : Option Notebook) (s : NotebookExplorerSession) (loaded : Bool)
    (calls : List Call) : NotebookExplorer :=
  { m_currentNotebook := nb, m_session := s, m_sessionLoaded := loaded,
    sessionConfig := [], calls := calls }

/-! ## Properties of `TreeWidgetItem::operator<` -/

section Comparator

open TreeWidgetItem

theorem qstringLess_irrefl (s : QString) : qstringLess s s = false := by
  induction s with
  | nil => rfl
  | cons a t ih => simp [qstringLess, ih]

theorem operatorLess_of_convertible (tk : Toolkit) (a b : QTreeWidgetItem)
    (ha : (a.data (column a)).canConvertQString = true)
    (hb : (b.data (column a)).canConvertQString = true) :
    operatorLess tk a b =
      qstringLess (tk.toLower (a.data (column a)).toString)
        (tk.toLower (b.data (column a)).toString) := by
  simp [operatorLess, ha, hb]

theorem operatorLess_of_not_convertible (tk : Toolkit) (a b : QTreeWidgetItem)
    (h : ¬ ((a.data (column a)).canConvertQString = true ∧
      (b.data (column a)).canConvertQString = true)) :
    operatorLess tk a b = tk.baseLess a b := by
  unfold operatorLess
  simp only [Bool.and_eq_true]
  rw [if_neg h]

theorem column_eq_of_sortColumn (a : QTreeWidgetItem) (c : Int)
    (hw : ∀ w, a.treeWidget = some w → c = w.sortColumn)
    (hn : a.treeWidget = none → c = 0) : c = column a := by
  unfold column
  cases h : a.treeWidget with
  | none => simpa using hn h
  | some w => simpa using hw w h

/-- C1: the comparator is case-insensitive. With `c` the sort column of the
tree the left item belongs to, or 0 when it belongs to none: for every pair of
items whose display values in column `c` both convert to strings, the result
is exactly `lowercase(s1) < lowercase(s2)` on the texts of column `c`; hence
replacing either text by a text with the same lowercase form (in items sorted
on the same column) leaves the result unchanged, and two texts with the same
lowercase form, that is, differing only in letter case, compare as not less,
in both directions when both items sort on the same column. -/
theorem operatorLess_case_insensitive (tk : Toolkit) :
    (∀ (a b : QTreeWidgetItem) (c : Int),
      (∀ w, a.treeWidget = some w → c = w.sortColumn) →
      (a.treeWidget = none → c = 0) →
      (a.data c).canConvertQString = true →
      (b.data c).canConvertQString = true →
      operatorLess tk a b =
        qstringLess (tk.toLower (a.data c).toString) (tk.toLower (b.data c).toString))
    ∧ (∀ (a b a2 b2 : QTreeWidgetItem) (c : Int),
      (∀ w, a.treeWidget = some w → c = w.sortColumn) →
      (a.treeWidget = none → c = 0) →
      (∀ w, a2.treeWidget = some w → c = w.sortColumn) →
      (a2.treeWidget = none → c = 0) →
      (a.data c).canConvertQString = true →
      (b.data c).canConvertQString = true →
      (a2.data c).canConvertQString = true →
      (b2.data c).canConvertQString = true →
      tk.toLower (a2.data c).toString = tk.toLower (a.data c).toString →
      tk.toLower (b2.data c).toString = tk.toLower (b.data c).toString →
      operatorLess tk a2 b2 = operatorLess tk a b)
    ∧ (∀ (a b : QTreeWidgetItem) (c : Int),
      (∀ w, a.treeWidget = some w → c = w.sortColumn) →
      (a.treeWidget = none → c = 0) →
      (a.data c).canConvertQString = true →
      (b.data c).canConvertQString = true →
      tk.toLower (a.data c).toString = tk.toLower (b.data c).toString →
      operatorLess tk a b = false
      ∧ ((∀ w, b.treeWidget = some w → c = w.sortColumn) →
        (b.treeWidget = none → c = 0) →
        operatorLess tk b a = false)) := by
  refine ⟨?_, ?_, ?_⟩
  · intro a b c hw hn ha hb
    have hc := column_eq_of_sortColumn a c hw hn
    subst hc
    exact operatorLess_of_convertible tk a b ha hb
  · intro a b a2 b2 c hw hn hw2 hn2 ha hb ha2 hb2 hla hlb
    have hc := column_eq_of_sortColumn a c hw hn
    have hc2 := column_eq_of_sortColumn a2 c hw2 hn2
    rw [operatorLess_of_convertible tk a b (hc ▸ ha) (hc ▸ hb),
      operatorLess_of_convertible tk a2 b2 (hc2 ▸ ha2) (hc2 ▸ hb2), ← hc, ← hc2, hla, hlb]
  · intro a b c hw hn ha hb hl
    have hc := column_eq_of_sortColumn a c hw hn
    refine ⟨?_, fun hwb hnb => ?_⟩
    · rw [operatorLess_of_convertible tk a b (hc ▸ ha) (hc ▸ hb), ← hc, hl,
        qstringLess_irrefl]
    · have hcb := column_eq_of_sortColumn b c hwb hnb
      rw [operatorLess_of_convertible tk b a (hcb ▸ hb) (hcb ▸ ha), ← hcb, hl,
        qstringLess_irrefl]

/-- The three parts of C1 at concrete rows of a tree sorted on column 1,
whose column 0 would order them the other way: the row showing "x" sorts
before the row showing "Y", although `x` follows `Y` in code-unit order and
"b" follows "a" in column 0; "X" and "y" may stand for "x" and "Y"; and the
rows showing "README" and "readme" are not less than each other. -/
theorem operatorLess_case_insensitive_witness :
    operatorLess asciiToolkit (rowItem 1 [some "b", some "x"])
        (rowItem 1 [some "a", some "Y"]) = true
    ∧ operatorLess asciiToolkit (rowItem 1 [some "b", some "X"])
          (rowItem 1 [some "a", some "y"])
        = operatorLess asciiToolkit (rowItem 1 [some "b", some "x"])
          (rowItem 1 [some "a", some "Y"])
    ∧ operatorLess asciiToolkit (rowItem 1 [some "b", some "README"])
        (rowItem 1 [some "a", some "readme"]) = false
    ∧ operatorLess asciiToolkit (rowItem 1 [some "a", some "readme"])
        (rowItem 1 [some "b", some "README"]) = false := by
  have h := operatorLess_case_insensitive asciiToolkit
  refine ⟨?_, ?_, ?_, ?_⟩
  · exact (h.1 (rowItem 1 [some "b", some "x"]) (rowItem 1 [some "a", some "Y"]) 1
      (fun w hw => by cases hw; rfl) (fun hn => by cases hn) rfl rfl).trans (by decide)
  · exact h.2.1 (rowItem 1 [some "b", some "x"]) (rowItem 1 [some "a", some "Y"])
      (rowItem 1 [some "b", some "X"]) (rowItem 1 [some "a", some "y"]) 1
      (fun w hw => by cases hw; rfl) (fun hn => by cases hn)
      (fun w hw => by cases hw; rfl) (fun hn => by cases hn)
      rfl rfl rfl rfl (by decide) (by decide)
  · exact (h.2.2 (rowItem 1 [some "b", some "README"])
      (rowItem 1 [some "a", some "readme"]) 1
      (fun w hw => by cases hw; rfl) (fun hn => by cases hn) rfl rfl (by decide)).1
  · exact (h.2.2 (rowItem 1 [some "b", some "README"])
      (rowItem 1 [some "a", some "readme"]) 1
      (fun w hw => by cases hw; rfl) (fun hn => by cases hn) rfl rfl (by decide)).2
      (fun w hw => by cases hw; rfl) (fun hn => by cases hn)

/-- C2: the comparator falls back to the toolkit comparison exactly when the
string comparison does not apply. With `c` the sort column of the tree the
item belongs to, or 0 when it belongs to none: when one of the two display
values in column `c` does not convert to a string, the result is that of
`QTreeWidgetItem::operator<`; when both convert, the result is the comparison
of the lowercased texts of column `c` and is the same whatever the toolkit
comparison answers. -/
theorem operatorLess_fallback (tk : Toolkit) (a b : QTreeWidgetItem) (c : Int)
    (hw : ∀ w, a.treeWidget = some w → c = w.sortColumn)
    (hn : a.treeWidget = none → c = 0) :
    (¬ ((a.data c).canConvertQString = true ∧ (b.data c).canConvertQString = true) →
      operatorLess tk a b = tk.baseLess a b)
    ∧ ((a.data c).canConvertQString = true ∧ (b.data c).canConvertQString = true →
      operatorLess tk a b =
        qstringLess (tk.toLower (a.data c).toString) (tk.toLower (b.data c).toString)
      ∧ ∀ base : QTreeWidgetItem → QTreeWidgetItem → Bool,
        operatorLess { toLower := tk.toLower, baseLess := base } a b = operatorLess tk a b) := by
  have hc := column_eq_of_sortColumn a c hw hn
  subst hc
  refine ⟨operatorLess_of_not_convertible tk a b, fun h => ⟨?_, fun base => ?_⟩⟩
  · exact operatorLess_of_convertible tk a b h.1 h.2
  · rw [operatorLess_of_convertible tk a b h.1 h.2,
      operatorLess_of_convertible _ a b h.1 h.2]

/-- C2 at concrete rows of a tree sorted on column 1: a row whose column 1
holds no text is compared by the toolkit, and two rows with texts in column 1
are compared on those texts, whatever column 0 shows. -/
theorem operatorLess_fallback_witness :
    operatorLess asciiToolkit (rowItem 1 [some "b", none]) (rowItem 1 [some "a", some "x"])
        = asciiToolkit.baseLess (rowItem 1 [some "b", none]) (rowItem 1 [some "a", some "x"])
    ∧ operatorLess asciiToolkit (rowItem 1 [some "b", some "X"]) (rowItem 1 [some "a", some "y"])
        = true
    ∧ operatorLess { toLower := asciiToolkit.toLower, baseLess := fun _ _ => false }
          (rowItem 1 [some "b", some "X"]) (rowItem 1 [some "a", some "y"])
        = operatorLess asciiToolkit (rowItem 1 [some "b", some "X"])
          (rowItem 1 [some "a", some "y"]) := by
  refine ⟨?_, ?_, ?_⟩
  · exact (operatorLess_fallback asciiToolkit (rowItem 1 [some "b", none])
      (rowItem 1 [some "a", some "x"]) 1
      (fun w hw => by cases hw; rfl) (fun hn => by cases hn)).1 (by decide)
  · exact ((operatorLess_fallback asciiToolkit (rowItem 1 [some "b", some "X"])
      (rowItem 1 [some "a", some "y"]) 1
      (fun w hw => by cases hw; rfl) (fun hn => by cases hn)).2 (by decide)).1.trans
      (by decide)
  · exact ((operatorLess_fallback asciiToolkit (rowItem 1 [some "b", some "X"])
      (rowItem 1 [some "a", some "y"]) 1
      (fun w hw => by cases hw; rfl) (fun hn => by cases hn)).2 (by decide)).2 _

end Comparator

/-! ## Properties of the session functions -/

section Session

open NotebookExplorer

theorem put_same (s : NotebookExplorerSession) (key : QString) (e : NotebookSession) :
    (s.put key e).m_notebooks key = some e := by
  simp [NotebookExplorerSession.put]

theorem put_other (s : NotebookExplorerSession) (key k : QString) (e : NotebookSession)
    (h : k ≠ key) : (s.put key e).m_notebooks k = s.m_notebooks k := by
  simp [NotebookExplorerSession.put, h]

theorem updateSession_of_not_loaded (env : Env) (st : NotebookExplorer)
    (h : st.m_sessionLoaded = false) : updateSession env st = st := by
  simp [updateSession, h]

theorem updateSession_of_no_notebook (env : Env) (st : NotebookExplorer)
    (h : st.m_currentNotebook = none) : updateSession env st = st := by
  unfold updateSession
  split
  · rfl
  · simp [h]

theorem updateSession_of_current (env : Env) (st : NotebookExplorer) (nb : Notebook)
    (hl : st.m_sessionLoaded = true) (hn : st.m_currentNotebook = some nb) :
    updateSession env st =
      { st with
        m_session := st.m_session.put nb.getRootFolderPath
          { m_recovered := true, m_currentNodePath := exploredPath env st } } := by
  unfold updateSession exploredPath currentExploredNode
  simp only [hl, hn]
  cases env.currentExploredNode st.calls <;> rfl

theorem updateSession_calls (env : Env) (st : NotebookExplorer) :
    (updateSession env st).calls = st.calls := by
  unfold updateSession
  split
  · rfl
  · split <;> rfl

theorem updateSession_fields (env : Env) (st : NotebookExplorer) :
    (updateSession env st).m_currentNotebook = st.m_currentNotebook
    ∧ (updateSession env st).m_sessionLoaded = st.m_sessionLoaded
    ∧ (updateSession env st).sessionConfig = st.sessionConfig := by
  unfold updateSession
  split
  · exact ⟨rfl, rfl, rfl⟩
  · split <;> exact ⟨rfl, rfl, rfl⟩

theorem recoverSession_of_not_loaded (env : Env) (st : NotebookExplorer)
    (h : st.m_sessionLoaded = false) : recoverSession env st = st := by
  simp [recoverSession, h]

theorem recoverSession_of_no_notebook (env : Env) (st : NotebookExplorer)
    (h : st.m_currentNotebook = none) : recoverSession env st = st := by
  unfold recoverSession
  split
  · rfl
  · simp [h]

theorem recoverSession_of_no_entry (env : Env) (st : NotebookExplorer) (nb : Notebook)
    (hn : st.m_currentNotebook = some nb)
    (he : st.m_session.m_notebooks nb.getRootFolderPath = none) :
    recoverSession env st = st := by
  unfold recoverSession
  split
  · rfl
  · simp [hn, he]

theorem recoverSession_of_done (env : Env) (st : NotebookExplorer) (nb : Notebook)
    (it : NotebookSession) (hn : st.m_currentNotebook = some nb)
    (he : st.m_session.m_notebooks nb.getRootFolderPath = some it)
    (hd : it.m_recovered = true ∨ it.m_currentNodePath = []) :
    recoverSession env st = st := by
  unfold recoverSession
  split
  · rfl
  · simp only [hn, he]
    rw [if_pos]
    rcases hd with hd | hd <;> simp [hd]

theorem recoverSession_of_pending (env : Env) (st : NotebookExplorer) (nb : Notebook)
    (it : NotebookSession) (hl : st.m_sessionLoaded = true)
    (hn : st.m_currentNotebook = some nb)
    (he : st.m_session.m_notebooks nb.getRootFolderPath = some it)
    (hr : it.m_recovered = false) (hp : it.m_currentNodePath ≠ []) :
    recoverSession env st =
      { st with
        m_session := st.m_session.put nb.getRootFolderPath
          { m_recovered := true, m_currentNodePath := it.m_currentNodePath }
        calls :=
          match env.loadNodeByPath st.calls nb it.m_currentNodePath with
          | some node => st.calls ++ [Call.explorerSetCurrentNode (some node)]
          | none => st.calls } := by
  unfold recoverSession
  simp only [hl, hn, he, hr]
  have hp2 : it.m_currentNodePath.isEmpty = false := by
    cases h : it.m_currentNodePath with
    | nil => exact absurd h hp
    | cons a t => rfl
  simp only [hp2]
  cases env.loadNodeByPath st.calls nb it.m_currentNodePath <;> rfl

/-- The ways `recoverSession` can go: it returns the state as it is, or the
entry of the current notebook was pending and is now marked recovered. -/
theorem recoverSession_cases (env : Env) (st : NotebookExplorer) :
    recoverSession env st = st
    ∨ ∃ nb it, st.m_sessionLoaded = true ∧ st.m_currentNotebook = some nb
        ∧ st.m_session.m_notebooks nb.getRootFolderPath = some it
        ∧ it.m_recovered = false ∧ it.m_currentNodePath ≠ []
        ∧ recoverSession env st =
          { st with
            m_session := st.m_session.put nb.getRootFolderPath
              { m_recovered := true, m_currentNodePath := it.m_currentNodePath }
            calls :=
              match env.loadNodeByPath st.calls nb it.m_currentNodePath with
              | some node => st.calls ++ [Call.explorerSetCurrentNode (some node)]
              | none => st.calls } := by
  rcases Bool.eq_false_or_eq_true st.m_sessionLoaded with hl | hl
  swap
  · exact Or.inl (recoverSession_of_not_loaded env st hl)
  rcases Option.eq_none_or_eq_some st.m_currentNotebook with hn | ⟨nb, hn⟩
  · exact Or.inl (recoverSession_of_no_notebook env st hn)
  rcases Option.eq_none_or_eq_some (st.m_session.m_notebooks nb.getRootFolderPath)
    with he | ⟨it, he⟩
  · exact Or.inl (recoverSession_of_no_entry env st nb hn he)
  rcases Bool.eq_false_or_eq_true it.m_recovered with hr | hr
  · exact Or.inl (recoverSession_of_done env st nb it hn he (Or.inl hr))
  by_cases hp : it.m_currentNodePath = []
  · exact Or.inl (recoverSession_of_done env st nb it hn he (Or.inr hp))
  · exact Or.inr ⟨nb, it, hl, hn, he, hr, hp,
      recoverSession_of_pending env st nb it hl hn he hr hp⟩

theorem recoverSession_fields (env : Env) (st : NotebookExplorer) :
    (recoverSession env st).m_currentNotebook = st.m_currentNotebook
    ∧ (recoverSession env st).m_sessionLoaded = st.m_sessionLoaded
    ∧ (recoverSession env st).sessionConfig = st.sessionConfig := by
  rcases recoverSession_cases env st with h | ⟨nb, it, _, _, _, _, _, h⟩
  · rw [h]; exact ⟨rfl, rfl, rfl⟩
  · rw [h]; exact ⟨rfl, rfl, rfl⟩

theorem recoverSession_lookup (env : Env) (st : NotebookExplorer) (k : QString) :
    (recoverSession env st).m_session.m_notebooks k = st.m_session.m_notebooks k
    ∨ ∃ it, st.m_session.m_notebooks k = some it ∧ it.m_recovered = false
        ∧ (recoverSession env st).m_session.m_notebooks k
          = some { m_recovered := true, m_currentNodePath := it.m_currentNodePath } := by
  rcases recoverSession_cases env st with h | ⟨nb, it, _, _, he, hr, _, h⟩
  · rw [h]; exact Or.inl rfl
  · rw [h]
    by_cases hk : k = nb.getRootFolderPath
    · subst hk
      exact Or.inr ⟨it, he, hr, put_same _ _ _⟩
    · exact Or.inl (put_other _ _ _ _ hk)

theorem recoverSession_calls (env : Env) (st : NotebookExplorer) :
    (recoverSession env st).calls = st.calls
    ∨ ∃ node, (recoverSession env st).calls
        = st.calls ++ [Call.explorerSetCurrentNode (some node)] := by
  rcases recoverSession_cases env st with h | ⟨nb, it, _, _, _, _, _, h⟩
  · rw [h]; exact Or.inl rfl
  · rw [h]
    cases hload : env.loadNodeByPath st.calls nb it.m_currentNodePath with
    | none => exact Or.inl (by simp [hload])
    | some node => exact Or.inr ⟨node, by simp [hload]⟩

theorem recoverSession_restores_paths (env : Env) (st : NotebookExplorer) (k : QString) :
    ((recoverSession env st).m_session.m_notebooks k).map NotebookSession.m_currentNodePath
      = (st.m_session.m_notebooks k).map NotebookSession.m_currentNodePath := by
  rcases recoverSession_lookup env st k with h | ⟨it, h0, _, h⟩
  · rw [h]
  · rw [h, h0]; rfl

/-- The state `setCurrentNotebook` hands to `recoverSession`. -/
theorem setCurrentNotebook_eq (env : Env) (p : Option Notebook) (st : NotebookExplorer) :
    setCurrentNotebook env p st =
      recoverSession env
        { updateSession env st with
          m_currentNotebook := p
          calls := st.calls ++
            [Call.selectorSetCurrentNotebook
              (match p with
                | some nb => nb.getId
                | none => env.InvalidId),
             Call.explorerSetNotebook p] } := by
  unfold setCurrentNotebook NotebookExplorer.call
  simp [updateSession_calls]

/-- C8: `recoverSession` restores at most once and creates no entry. It keeps
the set of keys of the session and every stored node path; it calls the node
explorer, with one `setCurrentNode`, only if the session is loaded, a notebook
is current and its entry exists, is not recovered and has a non-empty path;
and running it twice gives the state that running it once gives. -/
theorem recoverSession_restores_once (env : Env) (st : NotebookExplorer) :
    (∀ k, ((recoverSession env st).m_session.m_notebooks k).isSome
      = (st.m_session.m_notebooks k).isSome)
    ∧ (∀ k, ((recoverSession env st).m_session.m_notebooks k).map
          NotebookSession.m_currentNodePath
        = (st.m_session.m_notebooks k).map NotebookSession.m_currentNodePath)
    ∧ ((recoverSession env st).calls ≠ st.calls →
      st.m_sessionLoaded = true
      ∧ (∃ nb it, st.m_currentNotebook = some nb
        ∧ st.m_session.m_notebooks nb.getRootFolderPath = some it
        ∧ it.m_recovered = false ∧ it.m_currentNodePath ≠ [])
      ∧ ∃ node, (recoverSession env st).calls
          = st.calls ++ [Call.explorerSetCurrentNode (some node)])
    ∧ recoverSession env (recoverSession env st) = recoverSession env st := by
  refine ⟨fun k => ?_, fun k => ?_, fun hc => ?_, ?_⟩
  · rcases recoverSession_lookup env st k with h | ⟨it, h0, _, h⟩
    · rw [h]
    · rw [h, h0]; rfl
  · rcases recoverSession_lookup env st k with h | ⟨it, h0, _, h⟩
    · rw [h]
    · rw [h, h0]; rfl
  · rcases recoverSession_cases env st with h | ⟨nb, it, hl, hn, he, hr, hp, _⟩
    · exact absurd (by rw [h]) hc
    · refine ⟨hl, ⟨nb, it, hn, he, hr, hp⟩, ?_⟩
      rcases recoverSession_calls env st with h | h
      · exact absurd h hc
      · exact h
  · rcases recoverSession_cases env st with h | ⟨nb, it, _, hn, _, _, _, h⟩
    · rw [h, h]
    · have hf := recoverSession_fields env st
      exact recoverSession_of_done env _ nb
        { m_recovered := true, m_currentNodePath := it.m_currentNodePath }
        (hf.1.trans hn) (by rw [h]; exact put_same _ _ _) (Or.inl rfl)

/-- C8 at a concrete state: the entry of the current notebook `nb1` is pending
with path `a/b`, so the explorer is called, and only under the stated
conditions. -/
theorem recoverSession_restores_once_witness :
    (recoverSession (demoEnv 0 [])
        (demoState (some (demoNotebook 1 "nb1")) (sessionOf [("nb1", false, "a/b")]) true
          [])).calls ≠ []
    ∧ ∃ nb it, some (demoNotebook 1 "nb1") = some nb
        ∧ (sessionOf [("nb1", false, "a/b")]).m_notebooks nb.getRootFolderPath = some it
        ∧ it.m_recovered = false ∧ it.m_currentNodePath ≠ [] :=
  ⟨by decide,
    ((recoverSession_restores_once (demoEnv 0 [])
      (demoState (some (demoNotebook 1 "nb1")) (sessionOf [("nb1", false, "a/b")]) true
        [])).2.2.1 (by decide)).2.1⟩

/-- C3: switching notebooks saves, then restores. With the session loaded and
notebook `A` current, `setCurrentNotebook` first records at `A`'s root path the
path of the node explored just before the switch (empty if none) with the
recovered flag set, a record the final state still holds; it then runs the
restore on the session so updated: if that session has an entry for `B`'s root
path that is not recovered and has a non-empty path which `B` loads, the
explorer is told to show that node, after the selector and the explorer were
given `B`, and `B`'s entry is marked recovered. For a `B` with another root
path than `A` the entry consulted is the one the session had before the
switch. -/
theorem setCurrentNotebook_saves_then_restores (env : Env) (st : NotebookExplorer)
    (A : Notebook) (hl : st.m_sessionLoaded = true)
    (hA : st.m_currentNotebook = some A) :
    (updateSession env st).m_session.m_notebooks A.getRootFolderPath
      = some { m_recovered := true, m_currentNodePath := exploredPath env st }
    ∧ (∀ p : Option Notebook,
      setCurrentNotebook env p st =
        recoverSession env
          { updateSession env st with
            m_currentNotebook := p
            calls := st.calls ++
              [Call.selectorSetCurrentNotebook
                (match p with
                  | some nb => nb.getId
                  | none => env.InvalidId),
               Call.explorerSetNotebook p] }
      ∧ (setCurrentNotebook env p st).m_session.m_notebooks A.getRootFolderPath
        = some { m_recovered := true, m_currentNodePath := exploredPath env st })
    ∧ (∀ (B : Notebook) (it : NotebookSession) (node : Node),
      (updateSession env st).m_session.m_notebooks B.getRootFolderPath = some it →
      it.m_recovered = false → it.m_currentNodePath ≠ [] →
      env.loadNodeByPath
        (st.calls ++ [Call.selectorSetCurrentNotebook B.getId,
          Call.explorerSetNotebook (some B)]) B it.m_currentNodePath = some node →
      (setCurrentNotebook env (some B) st).calls
        = st.calls ++ [Call.selectorSetCurrentNotebook B.getId,
            Call.explorerSetNotebook (some B),
            Call.explorerSetCurrentNode (some node)]
      ∧ (setCurrentNotebook env (some B) st).m_session.m_notebooks B.getRootFolderPath
        = some { m_recovered := true, m_currentNodePath := it.m_currentNodePath }
      ∧ (setCurrentNotebook env (some B) st).m_currentNotebook = some B)
    ∧ (∀ B : Notebook, B.getRootFolderPath ≠ A.getRootFolderPath →
      (updateSession env st).m_session.m_notebooks B.getRootFolderPath
        = st.m_session.m_notebooks B.getRootFolderPath) := by
  have hrec : (updateSession env st).m_session.m_notebooks A.getRootFolderPath
      = some { m_recovered := true, m_currentNodePath := exploredPath env st } := by
    rw [updateSession_of_current env st A hl hA]
    exact put_same _ _ _
  have hload : (updateSession env st).m_sessionLoaded = true :=
    (updateSession_fields env st).2.1.trans hl
  refine ⟨hrec, fun p => ⟨setCurrentNotebook_eq env p st, ?_⟩, ?_, ?_⟩
  · rw [setCurrentNotebook_eq]
    rcases recoverSession_lookup env
      { updateSession env st with
        m_currentNotebook := p
        calls := st.calls ++
          [Call.selectorSetCurrentNotebook
            (match p with
              | some nb => nb.getId
              | none => env.InvalidId),
           Call.explorerSetNotebook p] } A.getRootFolderPath with h | ⟨it, h0, hr, _⟩
    · rw [h]; exact hrec
    · have h1 : some it
          = some { m_recovered := true, m_currentNodePath := exploredPath env st } :=
        h0.symm.trans hrec
      cases h1
      cases hr
  · intro B it node he hr hp hnode
    have h4 := recoverSession_of_pending env
      { updateSession env st with
        m_currentNotebook := some B
        calls := st.calls ++ [Call.selectorSetCurrentNotebook B.getId,
          Call.explorerSetNotebook (some B)] } B it hload rfl he hr hp
    dsimp only at h4
    rw [setCurrentNotebook_eq]
    dsimp only
    rw [h4]
    simp only [hnode]
    exact ⟨by simp, put_same _ _ _, trivial⟩
  · intro B hB
    rw [updateSession_of_current env st A hl hA]
    exact put_other _ _ _ _ hB

/-- C3 at a concrete switch from `nb1`, where node `a/b` is explored, to
`nb2`, whose entry is pending with path `c/d`. -/
theorem setCurrentNotebook_saves_then_restores_witness :
    (setCurrentNotebook (demoEnv 0 []) (some (demoNotebook 2 "nb2"))
        (demoState (some (demoNotebook 1 "nb1")) (sessionOf [("nb2", false, "c/d")]) true
          [Call.explorerSetCurrentNode (some (demoNode 1 "a/b"))])).m_session.m_notebooks
        (qstr "nb1")
      = some { m_recovered := true, m_currentNodePath := qstr "a/b" }
    ∧ (setCurrentNotebook (demoEnv 0 []) (some (demoNotebook 2 "nb2"))
        (demoState (some (demoNotebook 1 "nb1")) (sessionOf [("nb2", false, "c/d")]) true
          [Call.explorerSetCurrentNode (some (demoNode 1 "a/b"))])).calls
      = [Call.explorerSetCurrentNode (some (demoNode 1 "a/b")),
          Call.selectorSetCurrentNotebook 2,
          Call.explorerSetNotebook (some (demoNotebook 2 "nb2")),
          Call.explorerSetCurrentNode (some (demoNode 2 "c/d"))]
    ∧ (setCurrentNotebook (demoEnv 0 []) (some (demoNotebook 2 "nb2"))
        (demoState (some (demoNotebook 1 "nb1")) (sessionOf [("nb2", false, "c/d")]) true
          [Call.explorerSetCurrentNode (some (demoNode 1 "a/b"))])).m_session.m_notebooks
        (qstr "nb2")
      = some { m_recovered := true, m_currentNodePath := qstr "c/d" } := by
  have h := setCurrentNotebook_saves_then_restores (demoEnv 0 [])
    (demoState (some (demoNotebook 1 "nb1")) (sessionOf [("nb2", false, "c/d")]) true
      [Call.explorerSetCurrentNode (some (demoNode 1 "a/b"))])
    (demoNotebook 1 "nb1") rfl rfl
  have h3 := h.2.2.1 (demoNotebook 2 "nb2")
    { m_recovered := false, m_currentNodePath := qstr "c/d" } (demoNode 2 "c/d")
    (by decide) rfl (by decide) (by decide)
  exact ⟨(h.2.1 (some (demoNotebook 2 "nb2"))).2.trans (by decide), h3.1, h3.2.1⟩

/-- C4: the session is updated and persisted on shutdown. `saveSession`
stores in the session config exactly the serialization of the session that
`updateSession` leaves, which is also the session kept in memory and which,
with the session loaded and a notebook current, holds the path of the node
explored in that notebook; it calls no collaborator. The handler of the
closed main window is `saveSession` when the event is not marked handled and
leaves the whole state, so both the session in memory and the stored one,
as it is when the event is marked handled. -/
theorem saveSession_persists (env : Env) (st : NotebookExplorer) :
    (saveSession env st).sessionConfig = env.serialize (updateSession env st).m_session
    ∧ (saveSession env st).m_session = (updateSession env st).m_session
    ∧ (saveSession env st).calls = st.calls
    ∧ (∀ nb, st.m_sessionLoaded = true → st.m_currentNotebook = some nb →
      (updateSession env st).m_session.m_notebooks nb.getRootFolderPath
        = some { m_recovered := true, m_currentNodePath := exploredPath env st })
    ∧ (∀ ev : Event,
      (ev.m_handled = false → onMainWindowClosed env ev st = saveSession env st)
      ∧ (ev.m_handled = true → onMainWindowClosed env ev st = st)) := by
  refine ⟨rfl, rfl, updateSession_calls env st, fun nb hl hn => ?_, fun ev => ⟨?_, ?_⟩⟩
  · rw [updateSession_of_current env st nb hl hn]
    exact put_same _ _ _
  · intro h
    simp [onMainWindowClosed, h]
  · intro h
    simp [onMainWindowClosed, h]

/-- C4 at a concrete state: `nb1` is current with node `a/b` explored; an
unhandled close event stores that path, a handled one stores nothing. -/
theorem saveSession_persists_witness :
    (onMainWindowClosed (demoEnv 0 []) { m_handled := false }
        (demoState (some (demoNotebook 1 "nb1")) emptySession true
          [Call.explorerSetCurrentNode (some (demoNode 1 "a/b"))])).sessionConfig
      = qstr "a/b"
    ∧ (onMainWindowClosed (demoEnv 0 []) { m_handled := true }
        (demoState (some (demoNotebook 1 "nb1")) emptySession true
          [Call.explorerSetCurrentNode (some (demoNode 1 "a/b"))])).sessionConfig
      = [] := by
  have h := (saveSession_persists (demoEnv 0 [])
    (demoState (some (demoNotebook 1 "nb1")) emptySession true
      [Call.explorerSetCurrentNode (some (demoNode 1 "a/b"))])).2.2.2.2
  constructor
  · rw [(h { m_handled := false }).1 rfl]
    decide
  · rw [(h { m_handled := true }).2 rfl]
    rfl

/-- C5: the session is inert until it is loaded. While `m_sessionLoaded` is
false, `updateSession` and `recoverSession` return the state as it is (so the
session is unchanged and the explorer is not called) and `setCurrentNotebook`
leaves the session unchanged. `loadSession` sets the flag and is
`recoverSession` run on the state whose session is the deserialized stored
value: the resulting session has the keys and node paths of that value, agrees
with it at every root path other than the current notebook's, and is that
value when no notebook is current. The restore is attempted: when the
deserialized value holds for the current notebook an entry that is not
recovered and has a non-empty path, the load marks that entry recovered and,
if the notebook loads a node at that path, tells the explorer to show it
(and makes no call if it loads none); the explorer is called in no other
case. -/
theorem session_inert_before_load (env : Env) (st : NotebookExplorer) :
    (st.m_sessionLoaded = false →
      updateSession env st = st ∧ recoverSession env st = st
      ∧ ∀ p, (setCurrentNotebook env p st).m_session = st.m_session)
    ∧ (loadSession env st).m_sessionLoaded = true
    ∧ loadSession env st =
        recoverSession env
          { m_currentNotebook := st.m_currentNotebook
            m_session := env.deserialize st.sessionConfig
            m_sessionLoaded := true
            sessionConfig := []
            calls := st.calls }
    ∧ (∀ k, ((loadSession env st).m_session.m_notebooks k).map
          NotebookSession.m_currentNodePath
        = ((env.deserialize st.sessionConfig).m_notebooks k).map
          NotebookSession.m_currentNodePath)
    ∧ (∀ k, (∀ nb, st.m_currentNotebook = some nb → k ≠ nb.getRootFolderPath) →
      (loadSession env st).m_session.m_notebooks k
        = (env.deserialize st.sessionConfig).m_notebooks k)
    ∧ (st.m_currentNotebook = none →
      (loadSession env st).m_session = env.deserialize st.sessionConfig)
    ∧ (∀ nb it, st.m_currentNotebook = some nb →
      (env.deserialize st.sessionConfig).m_notebooks nb.getRootFolderPath = some it →
      it.m_recovered = false → it.m_currentNodePath ≠ [] →
      (loadSession env st).m_session.m_notebooks nb.getRootFolderPath
        = some { m_recovered := true, m_currentNodePath := it.m_currentNodePath }
      ∧ (∀ node, env.loadNodeByPath st.calls nb it.m_currentNodePath = some node →
        (loadSession env st).calls
          = st.calls ++ [Call.explorerSetCurrentNode (some node)])
      ∧ (env.loadNodeByPath st.calls nb it.m_currentNodePath = none →
        (loadSession env st).calls = st.calls))
    ∧ ((loadSession env st).calls ≠ st.calls →
      ∃ nb it, st.m_currentNotebook = some nb
        ∧ (env.deserialize st.sessionConfig).m_notebooks nb.getRootFolderPath = some it
        ∧ it.m_recovered = false ∧ it.m_currentNodePath ≠ []) := by
  have hload : loadSession env st =
      recoverSession env
        { m_currentNotebook := st.m_currentNotebook
          m_session := env.deserialize st.sessionConfig
          m_sessionLoaded := true
          sessionConfig := []
          calls := st.calls } := rfl
  refine ⟨fun h => ⟨updateSession_of_not_loaded env st h,
    recoverSession_of_not_loaded env st h, fun p => ?_⟩, ?_, hload, fun k => ?_,
    fun k hk => ?_, fun hn => ?_, fun nb it hn he hr hp => ?_, fun hc => ?_⟩
  · rw [setCurrentNotebook_eq, recoverSession_of_not_loaded]
    · rw [updateSession_of_not_loaded env st h]
    · exact (updateSession_fields env st).2.1.trans h
  · rw [hload]
    exact (recoverSession_fields env _).2.1
  · rw [hload]
    exact (recoverSession_restores_paths env _ k)
  · rw [hload]
    rcases recoverSession_cases env
      { m_currentNotebook := st.m_currentNotebook
        m_session := env.deserialize st.sessionConfig
        m_sessionLoaded := true
        sessionConfig := []
        calls := st.calls } with h | ⟨nb, it, _, hn, _, _, _, h⟩
    · rw [h]
    · rw [h]
      exact put_other _ _ _ _ (hk nb hn)
  · rw [hload]
    exact congrArg NotebookExplorer.m_session
      (recoverSession_of_no_notebook env
        { m_currentNotebook := st.m_currentNotebook
          m_session := env.deserialize st.sessionConfig
          m_sessionLoaded := true
          sessionConfig := []
          calls := st.calls } hn)
  · have h := recoverSession_of_pending env
      { m_currentNotebook := st.m_currentNotebook
        m_session := env.deserialize st.sessionConfig
        m_sessionLoaded := true
        sessionConfig := []
        calls := st.calls } nb it rfl hn he hr hp
    dsimp only at h
    rw [hload, h]
    refine ⟨put_same _ _ _, fun node hnode => ?_, fun hnone => ?_⟩
    · simp only [hnode]
    · simp only [hnone]
  · rw [hload] at hc
    rcases recoverSession_cases env
      { m_currentNotebook := st.m_currentNotebook
        m_session := env.deserialize st.sessionConfig
        m_sessionLoaded := true
        sessionConfig := []
        calls := st.calls } with h | ⟨nb, it, _, hn, he, hr, hp, _⟩
    · exact absurd (by rw [h]) hc
    · exact ⟨nb, it, hn, he, hr, hp⟩

/-- C5 at concrete states. Before the load, with `nb1` current, node `c/d`
explored and a pending entry `a/b` for `nb1` in memory: `updateSession` does
not record `c/d`, `recoverSession` does not call the explorer, and a switch to
`nb2` leaves the entry as it is. With `nb1` current and the path `a/b` stored,
the load marks the entry of `nb1` recovered and tells the explorer to show
`a/b`. -/
theorem session_inert_before_load_witness :
    (updateSession (demoEnv 0 [])
        (demoState (some (demoNotebook 1 "nb1")) (sessionOf [("nb1", false, "a/b")]) false
          [Call.explorerSetCurrentNode (some (demoNode 1 "c/d"))])).m_session.m_notebooks
        (qstr "nb1")
      = some { m_recovered := false, m_currentNodePath := qstr "a/b" }
    ∧ (recoverSession (demoEnv 0 [])
        (demoState (some (demoNotebook 1 "nb1")) (sessionOf [("nb1", false, "a/b")]) false
          [Call.explorerSetCurrentNode (some (demoNode 1 "c/d"))])).calls
      = [Call.explorerSetCurrentNode (some (demoNode 1 "c/d"))]
    ∧ (setCurrentNotebook (demoEnv 0 []) (some (demoNotebook 2 "nb2"))
        (demoState (some (demoNotebook 1 "nb1")) (sessionOf [("nb1", false, "a/b")]) false
          [Call.explorerSetCurrentNode (some (demoNode 1 "c/d"))])).m_session.m_notebooks
        (qstr "nb1")
      = some { m_recovered := false, m_currentNodePath := qstr "a/b" }
    ∧ (loadSession (demoEnv 0 [])
        { m_currentNotebook := some (demoNotebook 1 "nb1"), m_session := emptySession,
          m_sessionLoaded := false, sessionConfig := qstr "a/b",
          calls := [] }).m_session.m_notebooks (qstr "nb1")
      = some { m_recovered := true, m_currentNodePath := qstr "a/b" }
    ∧ (loadSession (demoEnv 0 [])
        { m_currentNotebook := some (demoNotebook 1 "nb1"), m_session := emptySession,
          m_sessionLoaded := false, sessionConfig := qstr "a/b",
          calls := [] }).calls
      = [Call.explorerSetCurrentNode (some (demoNode 1 "a/b"))] := by
  have h := (session_inert_before_load (demoEnv 0 [])
    (demoState (some (demoNotebook 1 "nb1")) (sessionOf [("nb1", false, "a/b")]) false
      [Call.explorerSetCurrentNode (some (demoNode 1 "c/d"))])).1 rfl
  have h7 := (session_inert_before_load (demoEnv 0 [])
    { m_currentNotebook := some (demoNotebook 1 "nb1"), m_session := emptySession,
      m_sessionLoaded := false, sessionConfig := qstr "a/b",
      calls := [] }).2.2.2.2.2.2.1 (demoNotebook 1 "nb1")
      { m_recovered := false, m_currentNodePath := qstr "a/b" } rfl (by decide) rfl
      (by decide)
  refine ⟨?_, ?_, ?_, h7.1, ?_⟩
  · rw [h.1]
    decide
  · rw [h.2.1]
    rfl
  · rw [h.2.2]
    decide
  · exact (h7.2.1 (demoNode 1 "a/b") (by decide)).trans (by decide)

/-- C6: the current notebook is the last one set. For every handle `p`, null
included, after `setCurrentNotebook(p)` the getter `currentNotebook` returns
`p`, and the calls made are, in order, the selector set to `p`'s id
(`Notebook::InvalidId` for null), the explorer given `p`, and at most one
`setCurrentNode` of the restore. -/
theorem setCurrentNotebook_sets_current (env : Env) (p : Option Notebook)
    (st : NotebookExplorer) :
    currentNotebook (setCurrentNotebook env p st) = p
    ∧ ∃ rest, (setCurrentNotebook env p st).calls
        = st.calls ++
          [Call.selectorSetCurrentNotebook
            (match p with
              | some nb => nb.getId
              | none => env.InvalidId),
           Call.explorerSetNotebook p] ++ rest
      ∧ (rest = [] ∨ ∃ node, rest = [Call.explorerSetCurrentNode (some node)]) := by
  rw [setCurrentNotebook_eq]
  refine ⟨(recoverSession_fields env _).1, ?_⟩
  rcases recoverSession_calls env
    { updateSession env st with
      m_currentNotebook := p
      calls := st.calls ++
        [Call.selectorSetCurrentNotebook
          (match p with
            | some nb => nb.getId
            | none => env.InvalidId),
         Call.explorerSetNotebook p] } with h | ⟨node, h⟩
  · exact ⟨[], by rw [h]; simp, Or.inl rfl⟩
  · exact ⟨[Call.explorerSetCurrentNode (some node)], by rw [h], Or.inr ⟨node, rfl⟩⟩

end Session

/-! ## Properties of the handlers -/

section Handlers

open NotebookExplorer

theorem failedToAddFile_ne_nil (file what : QString) : failedToAddFile file what ≠ [] := by
  have h : qstr "Failed to add file (" = 70 :: (qstr "ailed to add file (") := by decide
  unfold failedToAddFile
  rw [h]
  simp

theorem importFileLoop_eq (env : Env) (nb : Notebook) (node : Node) (files : List QString)
    (errMsg : QString) (calls : List Call) :
    importFileLoop env nb node files (errMsg, calls) =
      (errMsg ++ ((copyOutcomes env nb node files calls).filterMap failureLine).flatten,
        calls ++ (copyOutcomes env nb node files calls).map
          (fun o => Call.copyAsNode nb node o.1 o.2)) := by
  induction files generalizing errMsg calls with
  | nil => simp [importFileLoop, copyOutcomes]
  | cons file rest ih =>
    unfold importFileLoop
    cases h : env.copyAsNode calls nb node file with
    | none => simp [copyOutcomes, h, ih, failureLine]
    | some what => simp [copyOutcomes, h, ih, failureLine, List.append_assoc]

theorem copyOutcomes_files (env : Env) (nb : Notebook) (node : Node) (files : List QString)
    (calls : List Call) : (copyOutcomes env nb node files calls).map Prod.fst = files := by
  induction files generalizing calls with
  | nil => rfl
  | cons file rest ih => simp [copyOutcomes, ih]

theorem failureLines_isEmpty (outs : List (QString × Option QString)) :
    ((outs.filterMap failureLine).flatten).isEmpty = !outs.any (fun o => o.2.isSome) := by
  induction outs with
  | nil => rfl
  | cons o rest ih =>
    obtain ⟨f, r⟩ := o
    cases r with
    | none => simpa [failureLine, List.filterMap_cons] using ih
    | some what =>
      have h := failedToAddFile_ne_nil f what
      simp [failureLine, List.filterMap_cons, List.isEmpty_iff, h]

theorem importFile_eq (env : Env) (st : NotebookExplorer) (nb : Notebook) (node : Node)
    (hn : st.m_currentNotebook = some nb)
    (hf : env.currentExploredFolderNode st.calls = some node)
    (hfiles : env.getOpenFileNames st.calls ≠ []) :
    importFile env st =
      { st with
        calls :=
          st.calls ++ [Call.getOpenFileNames (env.getOpenFileNames st.calls)]
            ++ (copyOutcomes env nb node (env.getOpenFileNames st.calls)
                (st.calls ++ [Call.getOpenFileNames (env.getOpenFileNames st.calls)])).map
              (fun o => Call.copyAsNode nb node o.1 o.2)
            ++ (if (copyOutcomes env nb node (env.getOpenFileNames st.calls)
                  (st.calls ++ [Call.getOpenFileNames (env.getOpenFileNames st.calls)])).any
                  (fun o => o.2.isSome)
                then [Call.notify MessageType.Critical
                  (((copyOutcomes env nb node (env.getOpenFileNames st.calls)
                    (st.calls ++ [Call.getOpenFileNames (env.getOpenFileNames st.calls)])).filterMap
                      failureLine).flatten)]
                else [])
            ++ [Call.nodeUpdated nb node, Call.explorerSetCurrentNode (some node)] } := by
  have he : (env.getOpenFileNames st.calls).isEmpty = false := by
    cases h : env.getOpenFileNames st.calls with
    | nil => exact absurd h hfiles
    | cons a t => rfl
  unfold importFile checkNotebookAndGetCurrentExploredFolderNode currentExploredFolderNode
  simp only [hn, hf, NotebookExplorer.call, he, importFileLoop_eq, List.nil_append,
    failureLines_isEmpty]
  cases h : (copyOutcomes env nb node (env.getOpenFileNames st.calls)
      (st.calls ++ [Call.getOpenFileNames (env.getOpenFileNames st.calls)])).any
      (fun o => o.2.isSome) <;> simp [h]

theorem failureLine_eq :
    failureLine = fun o : QString × Option QString =>
      o.2.map (fun text =>
        qstr "Failed to add file (" ++ o.1 ++ qstr ") as node (" ++ text ++ qstr ").\n") :=
  rfl

theorem failureLines_length (outs : List (QString × Option QString)) :
    (outs.filterMap failureLine).length = outs.countP (fun o => o.2.isSome) := by
  induction outs with
  | nil => rfl
  | cons o rest ih =>
    obtain ⟨f, r⟩ := o
    cases r with
    | none => simpa [failureLine, List.filterMap_cons] using ih
    | some what => simp [failureLine, List.filterMap_cons, ih]

theorem importFile_newCalls (env : Env) (st : NotebookExplorer) (nb : Notebook)
    (node : Node) (hn : st.m_currentNotebook = some nb)
    (hf : env.currentExploredFolderNode st.calls = some node)
    (hne : env.getOpenFileNames st.calls ≠ []) :
    newCalls st (importFile env st) =
      [Call.getOpenFileNames (env.getOpenFileNames st.calls)]
        ++ (copyOutcomes env nb node (env.getOpenFileNames st.calls)
            (st.calls ++ [Call.getOpenFileNames (env.getOpenFileNames st.calls)])).map
          (fun o => Call.copyAsNode nb node o.1 o.2)
        ++ (if (copyOutcomes env nb node (env.getOpenFileNames st.calls)
              (st.calls ++ [Call.getOpenFileNames (env.getOpenFileNames st.calls)])).any
              (fun o => o.2.isSome)
            then [Call.notify MessageType.Critical
              ((copyOutcomes env nb node (env.getOpenFileNames st.calls)
                (st.calls ++ [Call.getOpenFileNames (env.getOpenFileNames st.calls)])).filterMap
                  failureLine).flatten]
            else [])
        ++ [Call.nodeUpdated nb node, Call.explorerSetCurrentNode (some node)] := by
  unfold newCalls
  rw [importFile_eq env st nb node hn hf hne]
  simp only [List.append_assoc, List.drop_left]

/-- C7: `importFile` reports failures in a message box and does not abort.
With a current notebook `nb`, the explored folder `node` and a non-empty list
of selected files, `copyAsNode` is attempted once for every file, in list
order, whatever the earlier attempts did: the calls made are the file dialog,
one `copyAsNode` per file, the Critical message box if and only if some
attempt threw, then the signal `nodeUpdated(node)` and `setCurrentNode(node)`
on the explorer, which come in every case. The text of the message box is the
concatenation, in list order, of one line per attempt that threw and of none
for the others, the line of file `f` whose exception has the text `t` being
"Failed to add file (`f`) as node (`t`)." followed by a newline: there are as
many lines as failed attempts, and the line of each failed file occurs in the
text. -/
theorem importFile_reports_and_continues (env : Env) (st : NotebookExplorer)
    (nb : Notebook) (node : Node) (files : List QString)
    (outs : List (QString × Option QString)) (errMsg : QString)
    (hn : st.m_currentNotebook = some nb)
    (hf : env.currentExploredFolderNode st.calls = some node)
    (hfiles : env.getOpenFileNames st.calls = files) (hne : files ≠ [])
    (houts : outs = copyOutcomes env nb node files
      (st.calls ++ [Call.getOpenFileNames files]))
    (herr : errMsg =
      (outs.filterMap (fun o => o.2.map (fun text =>
        qstr "Failed to add file (" ++ o.1 ++ qstr ") as node (" ++ text
          ++ qstr ").\n"))).flatten) :
    outs.map Prod.fst = files
    ∧ newCalls st (importFile env st) =
        [Call.getOpenFileNames files]
          ++ outs.map (fun o => Call.copyAsNode nb node o.1 o.2)
          ++ (if outs.any (fun o => o.2.isSome)
              then [Call.notify MessageType.Critical errMsg]
              else [])
          ++ [Call.nodeUpdated nb node, Call.explorerSetCurrentNode (some node)]
    ∧ ((∃ text, Call.notify MessageType.Critical text ∈ newCalls st (importFile env st))
      ↔ ∃ o ∈ outs, o.2 ≠ none)
    ∧ (∀ o ∈ outs, ∀ text, o.2 = some text →
      (qstr "Failed to add file (" ++ o.1 ++ qstr ") as node (" ++ text ++ qstr ").\n")
        <:+: errMsg)
    ∧ (outs.filterMap (fun o => o.2.map (fun text =>
        qstr "Failed to add file (" ++ o.1 ++ qstr ") as node (" ++ text
          ++ qstr ").\n"))).length
      = outs.countP (fun o => o.2.isSome)
    ∧ (importFile env st).m_session = st.m_session
    ∧ (importFile env st).m_currentNotebook = st.m_currentNotebook := by
  subst hfiles
  rw [← failureLine_eq] at herr ⊢
  subst herr
  have hcalls : newCalls st (importFile env st) =
      [Call.getOpenFileNames (env.getOpenFileNames st.calls)]
        ++ outs.map (fun o => Call.copyAsNode nb node o.1 o.2)
        ++ (if outs.any (fun o => o.2.isSome)
            then [Call.notify MessageType.Critical (outs.filterMap failureLine).flatten]
            else [])
        ++ [Call.nodeUpdated nb node, Call.explorerSetCurrentNode (some node)] := by
    rw [houts]
    exact importFile_newCalls env st nb node hn hf hne
  refine ⟨?_, hcalls, ?_, ?_, failureLines_length outs, ?_, ?_⟩
  · rw [houts]
    exact copyOutcomes_files env nb node _ _
  · rw [hcalls]
    by_cases hany : outs.any (fun o => o.2.isSome) = true
    · simp only [hany, if_true]
      constructor
      · intro _
        obtain ⟨o, ho, hs⟩ := List.any_eq_true.mp hany
        exact ⟨o, ho, by intro h; rw [h] at hs; cases hs⟩
      · intro _
        exact ⟨(outs.filterMap failureLine).flatten, by simp⟩
    · simp only [hany]
      constructor
      · rintro ⟨text, h⟩
        simp at h
      · rintro ⟨o, ho, hs⟩
        exfalso
        apply hany
        refine List.any_eq_true.mpr ⟨o, ho, ?_⟩
        cases h : o.2 with
        | none => exact absurd h hs
        | some w => rfl
  · intro o ho text ht
    apply List.infix_of_mem_flatten
    rw [List.mem_filterMap]
    refine ⟨o, ho, ?_⟩
    rw [failureLine_eq]
    show o.2.map _ = _
    rw [ht]
    rfl
  · rw [importFile_eq env st nb node hn hf hne]
  · rw [importFile_eq env st nb node hn hf hne]

/-- C7 at a concrete import of three files of which the first, `x1.md`, and
the last, `x2.md`, fail: all three are attempted, and the message box holds
the line of `x1.md` and then the line of `x2.md`. -/
theorem importFile_reports_and_continues_witness :
    newCalls (demoState (some (demoNotebook 1 "nb1")) emptySession true [])
        (importFile (demoEnv 0 ["x1.md", "a.md", "x2.md"])
          (demoState (some (demoNotebook 1 "nb1")) emptySession true []))
      = [Call.getOpenFileNames [qstr "x1.md", qstr "a.md", qstr "x2.md"],
          Call.copyAsNode (demoNotebook 1 "nb1") (demoNode 1 "folder") (qstr "x1.md")
            (some (qstr "exists")),
          Call.copyAsNode (demoNotebook 1 "nb1") (demoNode 1 "folder") (qstr "a.md") none,
          Call.copyAsNode (demoNotebook 1 "nb1") (demoNode 1 "folder") (qstr "x2.md")
            (some (qstr "exists")),
          Call.notify MessageType.Critical
            (qstr ("Failed to add file (x1.md) as node (exists).\n"
              ++ "Failed to add file (x2.md) as node (exists).\n")),
          Call.nodeUpdated (demoNotebook 1 "nb1") (demoNode 1 "folder"),
          Call.explorerSetCurrentNode (some (demoNode 1 "folder"))] :=
  (importFile_reports_and_continues (demoEnv 0 ["x1.md", "a.md", "x2.md"])
    (demoState (some (demoNotebook 1 "nb1")) emptySession true [])
    (demoNotebook 1 "nb1") (demoNode 1 "folder")
    [qstr "x1.md", qstr "a.md", qstr "x2.md"]
    [(qstr "x1.md", some (qstr "exists")), (qstr "a.md", none),
      (qstr "x2.md", some (qstr "exists"))]
    (qstr ("Failed to add file (x1.md) as node (exists).\n"
      ++ "Failed to add file (x2.md) as node (exists).\n"))
    rfl rfl rfl (by decide) (by decide) (by decide)).2.1.trans (by decide)

/-- The four functions that work on the explored folder, without a current
notebook: the information message box and nothing else. -/
theorem folder_functions_without_notebook (env : Env) (st : NotebookExplorer)
    (hn : st.m_currentNotebook = none) :
    newFolder env st = st.call (Call.notify MessageType.Information
        (qstr "Please first create a notebook to hold your data."))
    ∧ newNote env st = st.call (Call.notify MessageType.Information
        (qstr "Please first create a notebook to hold your data."))
    ∧ importFile env st = st.call (Call.notify MessageType.Information
        (qstr "Please first create a notebook to hold your data."))
    ∧ importFolder env st = st.call (Call.notify MessageType.Information
        (qstr "Please first create a notebook to hold your data.")) := by
  refine ⟨?_, ?_, ?_, ?_⟩
  · simp [newFolder, checkNotebookAndGetCurrentExploredFolderNode, hn]
  · simp [newNote, checkNotebookAndGetCurrentExploredFolderNode, hn]
  · simp [importFile, checkNotebookAndGetCurrentExploredFolderNode, hn]
  · simp [importFolder, checkNotebookAndGetCurrentExploredFolderNode, hn]

theorem scanAndImport_newCalls (env : Env) (st : NotebookExplorer) (nb : Notebook)
    (hn : st.m_currentNotebook = some nb) :
    newCalls st (scanAndImport env st) =
      Call.questionOkCancel MessageType.Warning
          (qstr "Scan the whole notebook (" ++ nb.getName
            ++ qstr ") and import external files automatically?")
          (env.questionOkCancel st.calls) ::
        (if env.questionOkCancel st.calls = QMessageBox.Ok then
          [Call.scanAndImportExternalFiles nb
              (env.scanAndImportExternalFiles
                (st.calls ++ [Call.questionOkCancel MessageType.Warning
                  (qstr "Scan the whole notebook (" ++ nb.getName
                    ++ qstr ") and import external files automatically?")
                  (env.questionOkCancel st.calls)]) nb),
            Call.notify MessageType.Information
              (qstr "Imported " ++ qstr (toString
                (env.scanAndImportExternalFiles
                  (st.calls ++ [Call.questionOkCancel MessageType.Warning
                    (qstr "Scan the whole notebook (" ++ nb.getName
                      ++ qstr ") and import external files automatically?")
                    (env.questionOkCancel st.calls)]) nb).length) ++ qstr " file(s).")]
            ++ (if (env.scanAndImportExternalFiles
                  (st.calls ++ [Call.questionOkCancel MessageType.Warning
                    (qstr "Scan the whole notebook (" ++ nb.getName
                      ++ qstr ") and import external files automatically?")
                    (env.questionOkCancel st.calls)]) nb) = []
                then [] else [Call.explorerReload])
        else []) := by
  unfold newCalls scanAndImport
  simp only [hn, NotebookExplorer.call]
  by_cases hok : env.questionOkCancel st.calls = QMessageBox.Ok
  · simp only [hok, ne_eq, not_true_eq_false, if_false, if_true]
    cases hl : env.scanAndImportExternalFiles
        (st.calls ++ [Call.questionOkCancel MessageType.Warning
          (qstr "Scan the whole notebook (" ++ nb.getName
            ++ qstr ") and import external files automatically?")
          QMessageBox.Ok]) nb with
    | nil => simp
    | cons a t => simp
  · simp [hok]

theorem emptyRecycleBin_newCalls (env : Env) (st : NotebookExplorer) (nb : Notebook)
    (hn : st.m_currentNotebook = some nb) :
    newCalls st (emptyRecycleBin env st) =
      Call.questionOkCancel MessageType.Warning
          (qstr "Empty the recycle bin of notebook (" ++ nb.getName ++ qstr ")?")
          (env.questionOkCancel st.calls) ::
        (if env.questionOkCancel st.calls = QMessageBox.Ok then [Call.emptyRecycleBin nb]
        else []) := by
  unfold newCalls emptyRecycleBin
  simp only [hn, NotebookExplorer.call]
  by_cases hok : env.questionOkCancel st.calls = QMessageBox.Ok
  · simp [hok]
  · simp [hok]

theorem rebuildDatabase_newCalls (env : Env) (st : NotebookExplorer) (nb : Notebook)
    (hn : st.m_currentNotebook = some nb) :
    ∃ r text type, newCalls st (rebuildDatabase env st) =
      Call.questionOkCancel MessageType.Warning
          (qstr "Rebuild the database of notebook (" ++ nb.getName ++ qstr ")?")
          (env.questionOkCancel st.calls) ::
        (if env.questionOkCancel st.calls = QMessageBox.Ok then
          [Call.rebuildDatabase nb r, Call.notify type text]
        else []) := by
  unfold newCalls rebuildDatabase
  simp only [hn, NotebookExplorer.call]
  by_cases hok : env.questionOkCancel st.calls = QMessageBox.Ok
  · simp only [hok, ne_eq, not_true_eq_false, if_false, if_true]
    cases hr : env.rebuildDatabase
        (st.calls ++ [Call.questionOkCancel MessageType.Warning
          (qstr "Rebuild the database of notebook (" ++ nb.getName ++ qstr ")?")
          QMessageBox.Ok]) nb with
    | false =>
      exact ⟨false, qstr "Failed to rebuild notebook database.", MessageType.Warning,
        by simp⟩
    | true =>
      exact ⟨true, qstr "Notebook database has been rebuilt.", MessageType.Information,
        by simp⟩
  · exact ⟨false, [], MessageType.Warning, by simp [hok]⟩

theorem maintenance_without_notebook (env : Env) (st : NotebookExplorer)
    (hn : st.m_currentNotebook = none) :
    scanAndImport env st = st.call (Call.notify MessageType.Warning
        (qstr "Please select one notebook first."))
    ∧ emptyRecycleBin env st = st ∧ rebuildDatabase env st = st := by
  refine ⟨?_, ?_, ?_⟩
  · simp [scanAndImport, hn]
  · simp [emptyRecycleBin, hn]
  · simp [rebuildDatabase, hn]

theorem newCalls_call (st : NotebookExplorer) (c : Call) : newCalls st (st.call c) = [c] := by
  simp [newCalls, NotebookExplorer.call]

theorem newCalls_self (st : NotebookExplorer) : newCalls st st = [] := by
  simp [newCalls]

/-- C10, as amended: user intent reaches the notebook only with a current
notebook and an explicit Ok. `scanAndImportExternalFiles`, `emptyRecycleBin`
and `rebuildDatabase` are called on a notebook if and only if it is the
current notebook and the confirmation dialog returned Ok. Without a current
notebook none of them is called: the scan handler shows a warning, the two
others do nothing, and `newFolder`, `newNote`, `importFile` and `importFolder`
show the information message box asking to create a notebook first and
return, opening no other dialog and making no call on the node explorer. The
explorer is reloaded if and only if a scan ran and returned a non-empty
list. -/
theorem forwarding_needs_notebook_and_ok (env : Env) (st : NotebookExplorer) :
    (∀ nb, (∃ l, Call.scanAndImportExternalFiles nb l ∈ newCalls st (scanAndImport env st))
      ↔ st.m_currentNotebook = some nb ∧ env.questionOkCancel st.calls = QMessageBox.Ok)
    ∧ (∀ nb, Call.emptyRecycleBin nb ∈ newCalls st (emptyRecycleBin env st)
      ↔ st.m_currentNotebook = some nb ∧ env.questionOkCancel st.calls = QMessageBox.Ok)
    ∧ (∀ nb, (∃ r, Call.rebuildDatabase nb r ∈ newCalls st (rebuildDatabase env st))
      ↔ st.m_currentNotebook = some nb ∧ env.questionOkCancel st.calls = QMessageBox.Ok)
    ∧ (st.m_currentNotebook = none →
      newCalls st (scanAndImport env st)
        = [Call.notify MessageType.Warning (qstr "Please select one notebook first.")]
      ∧ emptyRecycleBin env st = st ∧ rebuildDatabase env st = st
      ∧ ∀ st2, st2 = newFolder env st ∨ st2 = newNote env st ∨ st2 = importFile env st
          ∨ st2 = importFolder env st →
        newCalls st st2
          = [Call.notify MessageType.Information
              (qstr "Please first create a notebook to hold your data.")]
        ∧ (∀ c ∈ newCalls st st2, c.onExplorer = false)
        ∧ st2.m_session = st.m_session ∧ st2.m_currentNotebook = st.m_currentNotebook)
    ∧ (Call.explorerReload ∈ newCalls st (scanAndImport env st)
      ↔ ∃ nb l, Call.scanAndImportExternalFiles nb l ∈ newCalls st (scanAndImport env st)
          ∧ l ≠ []) := by
  refine ⟨fun nb => ?_, fun nb => ?_, fun nb => ?_, fun hn => ?_, ?_⟩
  · rcases Option.eq_none_or_eq_some st.m_currentNotebook with hn | ⟨cur, hn⟩
    · rw [(maintenance_without_notebook env st hn).1, newCalls_call]
      simp [hn]
    · rw [scanAndImport_newCalls env st cur hn]
      generalize env.scanAndImportExternalFiles
        (st.calls ++ [Call.questionOkCancel MessageType.Warning
          (qstr "Scan the whole notebook (" ++ cur.getName
            ++ qstr ") and import external files automatically?")
          (env.questionOkCancel st.calls)]) cur = l0
      by_cases hok : env.questionOkCancel st.calls = QMessageBox.Ok
      · simp only [hok, if_true, hn, Option.some.injEq, and_true]
        constructor
        · rintro ⟨l, hl⟩
          simp at hl
          exact hl.1.symm
        · rintro rfl
          exact ⟨l0, by simp⟩
      · simp [hok]
  · rcases Option.eq_none_or_eq_some st.m_currentNotebook with hn | ⟨cur, hn⟩
    · rw [(maintenance_without_notebook env st hn).2.1, newCalls_self]
      simp [hn]
    · rw [emptyRecycleBin_newCalls env st cur hn]
      by_cases hok : env.questionOkCancel st.calls = QMessageBox.Ok
      · simp only [hok, if_true, hn, Option.some.injEq, and_true]
        simp [eq_comm]
      · simp [hok]
  · rcases Option.eq_none_or_eq_some st.m_currentNotebook with hn | ⟨cur, hn⟩
    · rw [(maintenance_without_notebook env st hn).2.2, newCalls_self]
      simp [hn]
    · obtain ⟨r, text, type, h⟩ := rebuildDatabase_newCalls env st cur hn
      rw [h]
      by_cases hok : env.questionOkCancel st.calls = QMessageBox.Ok
      · simp only [hok, if_true, hn, Option.some.injEq, and_true]
        constructor
        · rintro ⟨r2, hr2⟩
          simp at hr2
          exact hr2.1.symm
        · rintro rfl
          exact ⟨r, by simp⟩
      · simp [hok]
  · have hm := maintenance_without_notebook env st hn
    have hf := folder_functions_without_notebook env st hn
    refine ⟨by rw [hm.1, newCalls_call], hm.2.1, hm.2.2, ?_⟩
    have key : ∀ st2, st2 = st.call (Call.notify MessageType.Information
          (qstr "Please first create a notebook to hold your data.")) →
        newCalls st st2
          = [Call.notify MessageType.Information
              (qstr "Please first create a notebook to hold your data.")]
        ∧ (∀ c ∈ newCalls st st2, c.onExplorer = false)
        ∧ st2.m_session = st.m_session ∧ st2.m_currentNotebook = st.m_currentNotebook := by
      rintro st2 rfl
      rw [newCalls_call]
      refine ⟨rfl, ?_, rfl, rfl⟩
      intro c hc
      rw [List.mem_singleton] at hc
      rw [hc]
      rfl
    rintro st2 (h | h | h | h)
    · exact key st2 (h.trans hf.1)
    · exact key st2 (h.trans hf.2.1)
    · exact key st2 (h.trans hf.2.2.1)
    · exact key st2 (h.trans hf.2.2.2)
  · rcases Option.eq_none_or_eq_some st.m_currentNotebook with hn | ⟨cur, hn⟩
    · rw [(maintenance_without_notebook env st hn).1, newCalls_call]
      simp
    · rw [scanAndImport_newCalls env st cur hn]
      generalize env.scanAndImportExternalFiles
        (st.calls ++ [Call.questionOkCancel MessageType.Warning
          (qstr "Scan the whole notebook (" ++ cur.getName
            ++ qstr ") and import external files automatically?")
          (env.questionOkCancel st.calls)]) cur = l0
      by_cases hok : env.questionOkCancel st.calls = QMessageBox.Ok
      · simp only [hok, if_true]
        by_cases hl : l0 = []
        · simp [hl]
        · simp only [hl, if_false]
          constructor
          · intro _
            exact ⟨cur, l0, by simp, hl⟩
          · intro _
            simp
      · simp [hok]

/-- C10, as amended, at concrete states: with `nb1` current and Ok answered
the recycle bin of `nb1` is emptied and a scan that imports `a.md` reloads the
explorer; with Cancel answered the recycle bin is not emptied; without a
notebook `newFolder` shows the information message box only. -/
theorem forwarding_needs_notebook_and_ok_witness :
    Call.emptyRecycleBin (demoNotebook 1 "nb1")
      ∈ newCalls (demoState (some (demoNotebook 1 "nb1")) emptySession true [])
        (emptyRecycleBin (demoEnv QMessageBox.Ok ["a.md"])
          (demoState (some (demoNotebook 1 "nb1")) emptySession true []))
    ∧ Call.explorerReload
      ∈ newCalls (demoState (some (demoNotebook 1 "nb1")) emptySession true [])
        (scanAndImport (demoEnv QMessageBox.Ok ["a.md"])
          (demoState (some (demoNotebook 1 "nb1")) emptySession true []))
    ∧ Call.emptyRecycleBin (demoNotebook 1 "nb1")
      ∉ newCalls (demoState (some (demoNotebook 1 "nb1")) emptySession true [])
        (emptyRecycleBin (demoEnv 0 ["a.md"])
          (demoState (some (demoNotebook 1 "nb1")) emptySession true []))
    ∧ newCalls (demoState none emptySession true [])
        (newFolder (demoEnv QMessageBox.Ok ["a.md"]) (demoState none emptySession true []))
      = [Call.notify MessageType.Information
          (qstr "Please first create a notebook to hold your data.")] := by
  refine ⟨?_, ?_, ?_, ?_⟩
  · exact ((forwarding_needs_notebook_and_ok (demoEnv QMessageBox.Ok ["a.md"])
      (demoState (some (demoNotebook 1 "nb1")) emptySession true [])).2.1
        (demoNotebook 1 "nb1")).mpr ⟨rfl, rfl⟩
  · exact (forwarding_needs_notebook_and_ok (demoEnv QMessageBox.Ok ["a.md"])
      (demoState (some (demoNotebook 1 "nb1")) emptySession true [])).2.2.2.2.mpr
        ⟨demoNotebook 1 "nb1", [qstr "a.md"], by decide, by decide⟩
  · intro h
    have h2 := ((forwarding_needs_notebook_and_ok (demoEnv 0 ["a.md"])
      (demoState (some (demoNotebook 1 "nb1")) emptySession true [])).2.1
        (demoNotebook 1 "nb1")).mp h
    exact absurd h2.2 (by decide)
  · exact (((forwarding_needs_notebook_and_ok (demoEnv QMessageBox.Ok ["a.md"])
      (demoState none emptySession true [])).2.2.2.1 rfl).2.2.2 _ (Or.inl rfl)).1

/-- C10 as stated fails where there is no current notebook: `newFolder`,
`newNote`, `importFile` and `importFolder` each open a dialog before they
return, the information message box of
`checkNotebookAndGetCurrentExploredFolderNode`. -/
theorem newFolder_without_notebook_opens_message_box :
    (demoState none emptySession true []).m_currentNotebook = none
    ∧ newCalls (demoState none emptySession true [])
        (newFolder (demoEnv 0 []) (demoState none emptySession true []))
      = [Call.notify MessageType.Information
          (qstr "Please first create a notebook to hold your data.")]
    ∧ (newCalls (demoState none emptySession true [])
        (newFolder (demoEnv 0 []) (demoState none emptySession true []))).any
          Call.opensDialog = true
    ∧ (newCalls (demoState none emptySession true [])
        (newNote (demoEnv 0 []) (demoState none emptySession true []))).any
          Call.opensDialog = true
    ∧ (newCalls (demoState none emptySession true [])
        (importFile (demoEnv 0 []) (demoState none emptySession true []))).any
          Call.opensDialog = true
    ∧ (newCalls (demoState none emptySession true [])
        (importFolder (demoEnv 0 []) (demoState none emptySession true []))).any
          Call.opensDialog = true := by
  decide

end Handlers

/-! ## The comparator as an order -/

section Ordering

open TreeWidgetItem

end Ordering

/-! ## Startup order -/

section Startup

open NotebookExplorer

theorem loadSession_of_no_notebook (env : Env) (st : NotebookExplorer)
    (hn : st.m_currentNotebook = none) :
    loadSession env st =
      { m_currentNotebook := st.m_currentNotebook
        m_session := env.deserialize st.sessionConfig
        m_sessionLoaded := true
        sessionConfig := []
        calls := st.calls } :=
  recoverSession_of_no_notebook env
    { m_currentNotebook := st.m_currentNotebook
      m_session := env.deserialize st.sessionConfig
      m_sessionLoaded := true
      sessionConfig := []
      calls := st.calls } hn

theorem setCurrentNotebook_of_not_loaded (env : Env) (p : Option Notebook)
    (st : NotebookExplorer) (hl : st.m_sessionLoaded = false) :
    setCurrentNotebook env p st =
      { m_currentNotebook := p
        m_session := st.m_session
        m_sessionLoaded := st.m_sessionLoaded
        sessionConfig := st.sessionConfig
        calls := st.calls ++
          [Call.selectorSetCurrentNotebook
            (match p with
              | some nb => nb.getId
              | none => env.InvalidId),
           Call.explorerSetNotebook p] } := by
  rw [setCurrentNotebook_eq, updateSession_of_not_loaded env st hl]
  exact recoverSession_of_not_loaded env _ hl

/-- C12: restoring the last-open node does not depend on the startup order.
From a state with the session not loaded and no current notebook, for every
stored session and every handle `p`, `loadSession` followed by
`setCurrentNotebook(p)` and `setCurrentNotebook(p)` followed by `loadSession`
end in the same state, so in the same session, the same current notebook,
which is `p`, and the same calls on the explorer. That state is the one
`recoverSession` yields on the deserialized stored session with `p` current,
after the selector and the explorer were given `p`. -/
theorem restore_independent_of_startup_order (env : Env) (st : NotebookExplorer)
    (p : Option Notebook) (hl : st.m_sessionLoaded = false)
    (hn : st.m_currentNotebook = none) :
    setCurrentNotebook env p (loadSession env st)
      = loadSession env (setCurrentNotebook env p st)
    ∧ (setCurrentNotebook env p (loadSession env st)).m_session
      = (loadSession env (setCurrentNotebook env p st)).m_session
    ∧ (setCurrentNotebook env p (loadSession env st)).m_currentNotebook = p
    ∧ (loadSession env (setCurrentNotebook env p st)).m_currentNotebook = p
    ∧ (setCurrentNotebook env p (loadSession env st)).calls
      = (loadSession env (setCurrentNotebook env p st)).calls
    ∧ loadSession env (setCurrentNotebook env p st) =
        recoverSession env
          { m_currentNotebook := p
            m_session := env.deserialize st.sessionConfig
            m_sessionLoaded := true
            sessionConfig := []
            calls := st.calls ++
              [Call.selectorSetCurrentNotebook
                (match p with
                  | some nb => nb.getId
                  | none => env.InvalidId),
               Call.explorerSetNotebook p] } := by
  have h2 : loadSession env (setCurrentNotebook env p st) =
      recoverSession env
        { m_currentNotebook := p
          m_session := env.deserialize st.sessionConfig
          m_sessionLoaded := true
          sessionConfig := []
          calls := st.calls ++
            [Call.selectorSetCurrentNotebook
              (match p with
                | some nb => nb.getId
                | none => env.InvalidId),
             Call.explorerSetNotebook p] } := by
    rw [setCurrentNotebook_of_not_loaded env p st hl]
    rfl
  have h1 : setCurrentNotebook env p (loadSession env st)
      = loadSession env (setCurrentNotebook env p st) := by
    rw [h2, loadSession_of_no_notebook env st hn, setCurrentNotebook_eq,
      updateSession_of_no_notebook env
        { m_currentNotebook := st.m_currentNotebook
          m_session := env.deserialize st.sessionConfig
          m_sessionLoaded := true
          sessionConfig := []
          calls := st.calls } hn]
  refine ⟨h1, by rw [h1], ?_, ?_, by rw [h1], h2⟩
  · rw [h1, h2]
    exact (recoverSession_fields env _).1
  · rw [h2]
    exact (recoverSession_fields env _).1

/-- C12 at a concrete start: the path `a/b` is stored for `nb1`; in either
order the explorer is given `nb1` and then told to show `a/b`, and the entry
of `nb1` ends recovered. -/
theorem restore_independent_of_startup_order_witness :
    (setCurrentNotebook (demoEnv 0 []) (some (demoNotebook 1 "nb1"))
        (loadSession (demoEnv 0 [])
          { m_currentNotebook := none, m_session := emptySession,
            m_sessionLoaded := false, sessionConfig := qstr "a/b", calls := [] })).calls
      = [Call.selectorSetCurrentNotebook 1,
          Call.explorerSetNotebook (some (demoNotebook 1 "nb1")),
          Call.explorerSetCurrentNode (some (demoNode 1 "a/b"))]
    ∧ (loadSession (demoEnv 0 [])
        (setCurrentNotebook (demoEnv 0 []) (some (demoNotebook 1 "nb1"))
          { m_currentNotebook := none, m_session := emptySession,
            m_sessionLoaded := false, sessionConfig := qstr "a/b", calls := [] })).calls
      = [Call.selectorSetCurrentNotebook 1,
          Call.explorerSetNotebook (some (demoNotebook 1 "nb1")),
          Call.explorerSetCurrentNode (some (demoNode 1 "a/b"))]
    ∧ (loadSession (demoEnv 0 [])
        (setCurrentNotebook (demoEnv 0 []) (some (demoNotebook 1 "nb1"))
          { m_currentNotebook := none, m_session := emptySession,
            m_sessionLoaded := false, sessionConfig := qstr "a/b",
            calls := [] })).m_session.m_notebooks (qstr "nb1")
      = some { m_recovered := true, m_currentNodePath := qstr "a/b" } := by
  have h := restore_independent_of_startup_order (demoEnv 0 [])
    { m_currentNotebook := none, m_session := emptySession,
      m_sessionLoaded := false, sessionConfig := qstr "a/b", calls := [] }
    (some (demoNotebook 1 "nb1")) rfl rfl
  refine ⟨h.2.2.2.2.1.trans (by decide), by decide, by decide⟩

end Startup

end vnotex
